import Mathlib

/-!
Verification of the multi-gateway payment subsystem of the Mallgram
e-commerce repository: the `/payments` Express routes (initialize, webhook,
methods) and the five gateway adapter services (KoraPay, MTN, Orange,
PayGate, PayFast), shallowly embedded as pure Lean functions over an
explicit database state (payments table, orders table, a count of
confirmation emails sent).

Modelling conventions:
* JavaScript strings are `String`; absent/undefined string fields are `""`
  (matching the truthiness tests the code performs on them).
* Timestamps (`Date.now()`, `toISOString()`) are `Nat` parameters.
* The cryptographic digest primitives (`crypto.createHash('md5')`,
  `crypto.createHmac('sha512', k)`) and `encodeURIComponent` are injected
  through the `Crypto` structure: the adapters' canonicalisation,
  key-sorting, secret-appending and comparison logic is embedded
  concretely, only the digest byte-level function itself is a parameter.
* Network calls made by the adapters (axios posts) are modelled by
  parameters carrying the provider response (or its failure).
-/

namespace Mallgram

/-- Crypto primitives injected into the adapters: the md5 hex digest, the
hmac-sha512 hex digest keyed by a secret, and the URL-encoding applied by
PayFast (encodeURIComponent followed by replacing percent-20 with plus). -/
structure Crypto where
  md5 : String → String
  hmacSHA512 : String → String → String
  urlencode : String → String

/-- URL-encoded form payload (PayFast and PayGate webhooks), as an
association list of field names to values, mirroring the object produced by
`parseFormData`. -/
def FormData := List (String × String)

instance : DecidableEq FormData := by
  unfold FormData
  infer_instance

/-- Field access `data.key` on a parsed form object: the value when the key
is present, `""` standing for JavaScript `undefined` otherwise. -/
def fdGetD (d : FormData) (k : String) : String :=
  match d.find? (fun kv => kv.1 == k) with
  | some kv => kv.2
  | none => ""

/-- Insertion of a key into a list sorted ascending, used to model the
`Object.keys(data).sort()` canonicalisation step of both signed form
adapters. -/
def insertSorted (s : String) : List String → List String
  | [] => [s]
  | a :: as => if a < s then a :: insertSorted s as else s :: a :: as

/-- Ascending sort of the field names, modelling `Object.keys(data).sort()`. -/
def sortKeys (l : List String) : List String :=
  l.foldr insertSorted []

/-- Rendering of a form payload back to a raw string, standing for the
opaque `gateway_response` audit blob the routes store. -/
def renderForm (d : FormData) : String :=
  String.intercalate "&" (d.map (fun kv => kv.1 ++ "=" ++ kv.2))

/-- JavaScript `toUpperCase`, character by character. -/
def jsToUpper (s : String) : String := String.mk (s.data.map Char.toUpper)

/-- JavaScript `toLowerCase`, character by character. -/
def jsToLower (s : String) : String := String.mk (s.data.map Char.toLower)

/-- Split of a character list at every occurrence of the separator,
matching the semantics of JavaScript `String.prototype.split` with a
one-character separator (empty segments preserved, `[[]]` on empty input). -/
def splitCh (sep : Char) : List Char → List (List Char)
  | [] => [[]]
  | a :: as =>
    match splitCh sep as with
    | [] => if a = sep then [[], []] else [[a]]
    | h :: t => if a = sep then [] :: h :: t else (a :: h) :: t

/-- JavaScript `s.split('_')`, as used by the KoraPay webhook handler on the
echoed payment reference. -/
def jsSplitUnderscore (s : String) : List String :=
  (splitCh '_' s.data).map (fun l => String.mk l)

/-- Payment reference generated at initiation by every adapter:
`mg_` followed by the order id, `_`, and the value of `Date.now()`.
Source: the `reference`/`externalId`/`order_id` fields of the five
`*Service.initializePayment` methods. -/
def mkRef (orderId : String) (ts : Nat) : String :=
  "mg_" ++ orderId ++ "_" ++ toString ts

/-- Generic result every adapter's `handleWebhook` returns to the webhook
route: the parsed payment identifier, provider transaction identifier, the
mapped status string and the raw payload kept for audit. -/
structure PaymentUpdate where
  payment_id : String
  transaction_id : String
  status : String
  gateway_response : String
deriving DecidableEq

/-- PayFast: md5 over the alphabetically sorted non-empty fields other than
`signature`, each rendered `key=urlencode(trim(value))` and joined by `&`,
with `&passphrase=urlencode(trim(passphrase))` appended when a passphrase
is configured. Source: `PayFastService.generateSignature`. -/
def payFastGenerateSignature (c : Crypto) (passphrase : String) (data : FormData) : String :=
  let keys := (data.filter (fun kv => kv.1 ≠ "signature" && kv.2 ≠ "")).map (·.1)
  let paramString :=
    String.intercalate "&"
      ((sortKeys keys).map (fun k => k ++ "=" ++ c.urlencode (fdGetD data k).trim))
  let full :=
    if passphrase ≠ "" then
      paramString ++ "&passphrase=" ++ c.urlencode passphrase.trim
    else paramString
  c.md5 full

/-- PayFast webhook handling: signature check against the recomputed md5,
then the server-to-server validation call (its outcome injected as
`validateOk`), then the fixed status table COMPLETE to success,
FAILED/CANCELLED to failed, anything else pending; the parsed payment id is
the `custom_str1` field (the bare order id stored there at initiation).
Source: `PayFastService.handleWebhook`. -/
def payFastHandleWebhook (c : Crypto) (passphrase : String) (validateOk : Bool)
    (data : FormData) : Except String (Option PaymentUpdate) :=
  if fdGetD data "signature" ≠ payFastGenerateSignature c passphrase data then
    .error "Invalid PayFast signature"
  else if !validateOk then
    .error "Payment validation failed"
  else
    let ps := fdGetD data "payment_status"
    let status :=
      if ps = "COMPLETE" then "success"
      else if ps = "FAILED" ∨ ps = "CANCELLED" then "failed"
      else "pending"
    .ok (some
      { payment_id := fdGetD data "custom_str1"
        transaction_id :=
          if fdGetD data "pf_payment_id" ≠ "" then fdGetD data "pf_payment_id"
          else fdGetD data "m_payment_id"
        status := status
        gateway_response := renderForm (data.filter (fun kv => kv.1 ≠ "signature")) })

/-- PayGate: md5 of the concatenation of the values of all fields other
than `CHECKSUM` in alphabetical key order, followed by the secret key, hex
digest upper-cased. Source: `PayGateService.generateChecksum`. -/
def payGateGenerateChecksum (c : Crypto) (key : String) (data : FormData) : String :=
  let ks := sortKeys ((data.filter (fun kv => kv.1 ≠ "CHECKSUM")).map (·.1))
  let valueString := String.join (ks.map (fdGetD data))
  jsToUpper (c.md5 (valueString ++ key))

/-- PayGate webhook handling: checksum verification, then the status table
1 to success, 2 to failed, 4 to cancelled, anything else pending; the
parsed payment id is the `USER1` field (the bare order id stored there at
initiation). Source: `PayGateService.handleWebhook`. -/
def payGateHandleWebhook (c : Crypto) (key : String)
    (data : FormData) : Except String (Option PaymentUpdate) :=
  if fdGetD data "CHECKSUM" ≠ payGateGenerateChecksum c key data then
    .error "Invalid PayGate checksum"
  else
    let ts := fdGetD data "TRANSACTION_STATUS"
    let status :=
      if ts = "1" then "success"
      else if ts = "2" then "failed"
      else if ts = "4" then "cancelled"
      else "pending"
    .ok (some
      { payment_id := fdGetD data "USER1"
        transaction_id := fdGetD data "PAY_REQUEST_ID"
        status := status
        gateway_response := renderForm data })

/-- KoraPay webhook payload: the event name, the echoed merchant reference
`event.data.reference`, and `raw` standing for `JSON.stringify(payload)`
over which the hmac is computed. -/
structure KoraWebhookPayload where
  event : String
  reference : String
  raw : String
deriving DecidableEq

/-- KoraPay signature check: hmac-sha512 of the serialised payload keyed by
the webhook secret, compared to the received header; verification is
skipped (accepts) when no webhook secret is configured. Source:
`KoraPayService.verifyWebhookSignature`. -/
def koraVerifyWebhookSignature (c : Crypto) (secret : String)
    (p : KoraWebhookPayload) (sig : String) : Bool :=
  if secret = "" then true
  else sig == c.hmacSHA512 secret p.raw

/-- KoraPay webhook handling: signature check, then `charge.success` maps
to success and `charge.failed` to failed, with the parsed payment id taken
as element 1 of the echoed reference split at underscores (the code's
"extract order ID" step); any other event yields null. Source:
`KoraPayService.handleWebhook`. -/
def koraHandleWebhook (c : Crypto) (secret : String)
    (p : KoraWebhookPayload) (sig : String) : Except String (Option PaymentUpdate) :=
  if !koraVerifyWebhookSignature c secret p sig then
    .error "Invalid webhook signature"
  else if p.event = "charge.success" then
    .ok (some
      { payment_id := (jsSplitUnderscore p.reference).getD 1 ""
        transaction_id := p.reference
        status := "success"
        gateway_response := p.raw })
  else if p.event = "charge.failed" then
    .ok (some
      { payment_id := (jsSplitUnderscore p.reference).getD 1 ""
        transaction_id := p.reference
        status := "failed"
        gateway_response := p.raw })
  else
    .ok none

/-- MTN webhook payload fields read by the handler; `financialTransactionId`
is `""` when absent. -/
structure MTNWebhookPayload where
  status : String
  referenceId : String
  financialTransactionId : String
  raw : String
deriving DecidableEq

/-- MTN webhook handling. The handler performs no signature verification at
all (the signature argument the route passes is ignored): SUCCESSFUL maps
to success, FAILED to failed, anything else yields null. Source:
`MTNService.handleWebhook`. -/
def mtnHandleWebhook (p : MTNWebhookPayload) (sig : String) :
    Except String (Option PaymentUpdate) :=
  let _ := sig
  if p.status = "SUCCESSFUL" then
    .ok (some
      { payment_id := p.referenceId
        transaction_id :=
          if p.financialTransactionId ≠ "" then p.financialTransactionId
          else p.referenceId
        status := "success"
        gateway_response := p.raw })
  else if p.status = "FAILED" then
    .ok (some
      { payment_id := p.referenceId
        transaction_id := p.referenceId
        status := "failed"
        gateway_response := p.raw })
  else
    .ok none

/-- Orange Money webhook payload fields read by the handler; `txnid` is
`""` when absent; `raw` stands for `JSON.stringify(payload)`. -/
structure OrangeWebhookPayload where
  status : String
  order_id : String
  txnid : String
  pay_token : String
  raw : String
deriving DecidableEq

/-- Orange Money signature check: md5 of the serialised payload
concatenated with the merchant key, compared case-insensitively;
verification accepts when no merchant key is configured. Source:
`OrangeService.verifyWebhookSignature`. -/
def orangeVerifyWebhookSignature (c : Crypto) (merchantKey : String)
    (p : OrangeWebhookPayload) (sig : String) : Bool :=
  if merchantKey = "" then true
  else jsToLower sig == jsToLower (c.md5 (p.raw ++ merchantKey))

/-- Orange Money webhook handling: the signature is only checked when one
was provided (JavaScript truthiness of the header value); SUCCESS maps to
success, FAILED/CANCELLED to failed, anything else yields null; the parsed
payment id is the echoed `order_id` field (which Orange initiation set to
the full mg reference). Source: `OrangeService.handleWebhook`. -/
def orangeHandleWebhook (c : Crypto) (merchantKey : String)
    (p : OrangeWebhookPayload) (sig : String) : Except String (Option PaymentUpdate) :=
  if sig ≠ "" ∧ !orangeVerifyWebhookSignature c merchantKey p sig then
    .error "Invalid webhook signature"
  else if p.status = "SUCCESS" then
    .ok (some
      { payment_id := p.order_id
        transaction_id := if p.txnid ≠ "" then p.txnid else p.pay_token
        status := "success"
        gateway_response := p.raw })
  else if p.status = "FAILED" ∨ p.status = "CANCELLED" then
    .ok (some
      { payment_id := p.order_id
        transaction_id := if p.txnid ≠ "" then p.txnid else p.pay_token
        status := "failed"
        gateway_response := p.raw })
  else
    .ok none

/-- Row of the `payments` table as the payment routes read and write it. -/
structure PaymentRow where
  id : String
  order_id : String
  user_id : String
  payment_method : String
  amount : Int
  currency : String
  status : String
  gateway_transaction_id : String
  gateway_response : String
  processed_at : Option Nat
  created_at : Nat
  updated_at : Nat
deriving DecidableEq

/-- Row of the `orders` table as the payment routes read and write it:
`payment_status` is the payment state, `status` the fulfillment state, and
`has_user` models whether the `users` join of the post-payment email query
finds the owning user record. -/
structure OrderRow where
  id : String
  user_id : String
  total_price : Int
  payment_status : String
  status : String
  has_user : Bool
  updated_at : Nat
deriving DecidableEq

/-- Persistent state the payment routes touch: the two tables and a count
of order-confirmation emails dispatched through the notification sink. -/
structure DB where
  payments : List PaymentRow
  orders : List OrderRow
  emailsSent : Nat
deriving DecidableEq

/-- HTTP outcome of the webhook endpoint: the response status code and the
`success` flag of the JSON body. -/
structure HttpResponse where
  status : Nat
  success : Bool
deriving DecidableEq

/-- Authenticated user record the routes and adapters read. -/
structure UserRec where
  id : String
  email : String
  full_name : String
  phone_number : String
  country : String
deriving DecidableEq

/-- Result an adapter's payment initiation returns to the initialize route. -/
structure InitResult where
  payment_id : String
  transaction_id : String
  payment_url : Option String
  currency : String
  gateway_response : String
deriving DecidableEq

/-- KoraPay country-to-currency table. Source: `KoraPayService.getCurrency`. -/
def koraGetCurrency (country : String) : String :=
  if country = "ZA" then "ZAR"
  else if country = "NG" then "NGN"
  else if country = "KE" then "KES"
  else if country = "GH" then "GHS"
  else if country = "CM" then "XAF"
  else "USD"

/-- PayFast payment initiation. No network call is made: the adapter builds
the signed redirect URL locally and always succeeds, returning the fresh
`mg` reference as both payment and transaction id. Source:
`PayFastService.initializePayment` (URL assembly elided; the fields the
route consumes are kept). -/
def payFastInitPayment (order : OrderRow) (user : UserRec) (now : Nat) : InitResult :=
  let reference := mkRef order.id now
  { payment_id := reference
    transaction_id := reference
    payment_url := some ("payfast-redirect?" ++ reference)
    currency := "ZAR"
    gateway_response := "payfast:" ++ reference ++ ":" ++ user.email }

/-- Parsed body of KoraPay's charge-initialisation response: the `status`
flag, Kora's own `data.reference` and the checkout URL. -/
structure KoraInitResponse where
  ok : Bool
  dataReference : String
  checkoutUrl : String
  message : String
deriving DecidableEq

/-- KoraPay payment initiation; `resp` injects the outcome of the axios
post to the charges endpoint (network error or parsed body). On a response
whose status flag is set, the fresh `mg` reference is the payment id and
Kora's reference the transaction id; otherwise the error is rethrown
prefixed with the provider tag, as the catch block does. Source:
`KoraPayService.initializePayment`. -/
def koraInitPayment (order : OrderRow) (user : UserRec) (now : Nat)
    (resp : Except String KoraInitResponse) : Except String InitResult :=
  match resp with
  | .error e => .error ("Kora Pay error: " ++ e)
  | .ok r =>
    if r.ok then
      .ok
        { payment_id := mkRef order.id now
          transaction_id := r.dataReference
          payment_url := some r.checkoutUrl
          currency := koraGetCurrency user.country
          gateway_response := "kora:" ++ r.dataReference }
    else
      .error ("Kora Pay error: " ++
        (if r.message ≠ "" then r.message else "Payment initialization failed"))

/-- PayGate payment initiation; `resp` injects the outcome of the signed
form post (network error, or the `PAY_REQUEST_ID` extracted from the HTML
response when the pattern matched). Source:
`PayGateService.initializePayment`. -/
def payGateInitPayment (order : OrderRow) (user : UserRec) (now : Nat)
    (resp : Except String (Option String)) : Except String InitResult :=
  match resp with
  | .error e => .error ("PayGate error: " ++ e)
  | .ok none => .error ("PayGate error: Failed to get payment URL from PayGate")
  | .ok (some prid) =>
    .ok
      { payment_id := mkRef order.id now
        transaction_id := prid
        payment_url := some ("https://secure.paygate.co.za/payweb3/process.trans?PAY_REQUEST_ID=" ++ prid)
        currency := "ZAR"
        gateway_response := "paygate:" ++ prid }

/-- Descriptor of one entry of the static payment-method table the
`/payments/methods` route serves. -/
structure MethodDesc where
  id : String
  name : String
  type : String
  fees : String
deriving DecidableEq

/-- Static country-to-methods availability table. Source: the
`paymentMethods` object of `router.get('/methods')`: South Africa lists
PayGate, PayFast and Kora; Cameroon lists Orange, MTN and Kora; any other
country code resolves to the empty list. -/
def paymentMethodsFor (country : String) : List MethodDesc :=
  if country = "ZA" then
    [ { id := "paygate", name := "PayGate", type := "card", fees := "2.9 pct + R2.00" }
    , { id := "payfast", name := "PayFast", type := "card", fees := "2.9 pct + R2.00" }
    , { id := "kora", name := "Kora Pay", type := "card", fees := "3.5 pct" } ]
  else if country = "CM" then
    [ { id := "orange", name := "Orange Money", type := "mobile_money", fees := "1.5 pct" }
    , { id := "mtn", name := "MTN Mobile Money", type := "mobile_money", fees := "1.5 pct" }
    , { id := "kora", name := "Kora Pay", type := "card", fees := "3.5 pct" } ]
  else []

/-- Method ids listed for a country by the `/payments/methods` route. -/
def methodIdsFor (country : String) : List String :=
  (paymentMethodsFor country).map (·.id)

/-- Error taxonomy of the initialize route: `ValidationError` (400),
`NotFoundError` (404), and the plain rethrown `Error` (500) that wraps
everything thrown inside the gateway try block. -/
inductive InitErr where
  | validation (msg : String)
  | notFound (msg : String)
  | generic (msg : String)
deriving DecidableEq

/-- Request body of `POST /payments/initialize`; absent fields are `""`. -/
structure InitReq where
  order_id : String
  payment_method : String
  return_url : String
  phone_number : String
deriving DecidableEq

deriving instance DecidableEq for Except

/-- Outcome of one initialize call: the database afterwards, which gateway
adapter (if any) was invoked, and the HTTP-level result. -/
structure InitOutcome where
  db : DB
  gatewayCalled : Option String
  result : Except InitErr InitResult
deriving DecidableEq

/-- Order lookup of the initialize route: the single order with the given
id owned by the caller. Source: the supabase select filtered on `id` and
`user_id` with `.single()`. -/
def findOrder (db : DB) (orderId userId : String) : Option OrderRow :=
  db.orders.find? (fun o => o.id == orderId && o.user_id == userId)

/-- The five method ids the initialize route's switch dispatches on. -/
def knownMethods : List String :=
  ["kora", "mtn", "orange", "paygate", "payfast"]

/-- POST /payments/initialize. Steps, in source order: required-field
check; order lookup by id and owner; the idempotency guard rejecting any
order whose `payment_status` differs from `pending`; the mobile-money
phone-number check; the switch dispatching on the method id (an unknown id
throws Unsupported payment method inside the try block, so it surfaces
through the catch as a generic error); the adapter call, whose outcome is
injected as `gw method` (the adapter receives the order, user and
return-url/phone arguments; its network interaction is external); and on
success the insert of a fresh pending payment row (rejected when a row
with that primary key already exists). Every failure inside the try block
is rethrown as `Payment initialization failed: ` followed by the inner
message. Source: `router.post('/initialize')`. -/
def initRoute (db : DB) (user : UserRec) (req : InitReq)
    (gw : String → Except String InitResult) (now : Nat) : InitOutcome :=
  if req.order_id = "" ∨ req.payment_method = "" then
    { db := db, gatewayCalled := none
      result := .error (.validation "Order ID and payment method are required") }
  else
    match findOrder db req.order_id user.id with
    | none =>
      { db := db, gatewayCalled := none
        result := .error (.notFound "Order not found") }
    | some order =>
      if order.payment_status ≠ "pending" then
        { db := db, gatewayCalled := none
          result := .error (.validation "Order payment has already been processed") }
      else if (req.payment_method = "mtn" ∨ req.payment_method = "orange") ∧
          req.phone_number = "" then
        { db := db, gatewayCalled := none
          result := .error (.validation "Phone number is required for mobile money payments") }
      else if req.payment_method ∉ knownMethods then
        { db := db, gatewayCalled := none
          result := .error (.generic "Payment initialization failed: Unsupported payment method") }
      else
        match gw req.payment_method with
        | .error e =>
          { db := db, gatewayCalled := some req.payment_method
            result := .error (.generic ("Payment initialization failed: " ++ e)) }
        | .ok r =>
          if db.payments.any (fun p => p.id == r.payment_id) then
            { db := db, gatewayCalled := some req.payment_method
              result := .error (.generic "Payment initialization failed: Payment initialization failed") }
          else
            { db :=
                { db with payments := db.payments ++
                    [ { id := r.payment_id
                        order_id := order.id
                        user_id := user.id
                        payment_method := req.payment_method
                        amount := order.total_price
                        currency := r.currency
                        status := "pending"
                        gateway_transaction_id := r.transaction_id
                        gateway_response := r.gateway_response
                        processed_at := none
                        created_at := now
                        updated_at := now } ] }
              gatewayCalled := some req.payment_method
              result := .ok r }

/-- Webhook-relevant gateway configuration loaded from the environment:
the per-provider shared secrets the webhook verifications use (an empty
string models an unconfigured secret). -/
structure GatewayConfig where
  koraWebhookSecret : String
  orangeMerchantKey : String
  payGateKey : String
  payFastPassphrase : String
deriving DecidableEq

/-- Inbound webhook request as the route sees it: which provider marker
header is present (the route dispatches on `x-kora-signature`,
`x-mtn-signature`, `x-orange-signature`, `x-paygate-signature`,
`x-payfast-signature`, in that order, and rejects when none matches), the
signature value it passes to the adapter (`x-signature` falling back to
`x-kora-signature`; `""` when absent), and the provider-specific payload.
The PayFast constructor also carries the outcome of the adapter's
server-to-server validation call. -/
inductive WebhookReq where
  | unknown
  | kora (sig : String) (p : KoraWebhookPayload)
  | mtn (sig : String) (p : MTNWebhookPayload)
  | orange (sig : String) (p : OrangeWebhookPayload)
  | paygate (sig : String) (data : FormData)
  | payfast (sig : String) (validateOk : Bool) (data : FormData)
deriving DecidableEq

/-- Dispatch step of the webhook route: selects the adapter from the marker
header and runs its `handleWebhook`; an unrecognised source is a
`ValidationError` thrown into the surrounding catch. Source: the header
dispatch chain of `router.post('/webhook')`. -/
def routeParse (c : Crypto) (cfg : GatewayConfig) (req : WebhookReq) :
    Except String (Option PaymentUpdate) :=
  match req with
  | .unknown => .error "Unknown webhook source"
  | .kora sig p => koraHandleWebhook c cfg.koraWebhookSecret p sig
  | .mtn sig p => mtnHandleWebhook p sig
  | .orange sig p => orangeHandleWebhook c cfg.orangeMerchantKey p sig
  | .paygate sig data =>
    let _ := sig
    payGateHandleWebhook c cfg.payGateKey data
  | .payfast sig validateOk data =>
    let _ := sig
    payFastHandleWebhook c cfg.payFastPassphrase validateOk data

/-- Payment-row write of the webhook route: an update filtered on `id`
alone (no condition on the current status), overwriting status, gateway
transaction id, raw response, `processed_at` (set to now on success and to
null otherwise) and `updated_at`. Source: the supabase update of
`router.post('/webhook')`. -/
def applyPaymentUpdate (u : PaymentUpdate) (now : Nat) (p : PaymentRow) : PaymentRow :=
  if p.id = u.payment_id then
    { p with
        status := u.status
        gateway_transaction_id := u.transaction_id
        gateway_response := u.gateway_response
        processed_at := if u.status = "success" then some now else none
        updated_at := now }
  else p

/-- Order-row write performed when a webhook reports success: payment
status to success and fulfillment status to paid, filtered on the order id.
Source: the orders update of `router.post('/webhook')`. -/
def applyOrderSuccess (orderId : String) (now : Nat) (o : OrderRow) : OrderRow :=
  if o.id = orderId then
    { o with payment_status := "success", status := "paid", updated_at := now }
  else o

/-- POST /payments/webhook (the reconcile path). In source order: adapter
dispatch and parse (any throw is caught and answered 400 with no state
touched, including a null parse result, which crashes on the
`paymentUpdate.status` read before any database call); the unconditional
payment update filtered on id alone, whose `.single()` read back fails the
request when the id matched no row (or more than one); on a success status
the order update, the order-with-user fetch and the best-effort
confirmation email; then the `this.processAffiliateCommission` call, which
is a TypeError (the arrow handler's `this` is the module's original empty
exports object), so the caught exception answers 400 even though every
mutation and the email already happened; any non-success status reaches
the 200 response. Source: `router.post('/webhook')`. -/
def webhookRoute (c : Crypto) (cfg : GatewayConfig) (now : Nat) (db : DB)
    (req : WebhookReq) : DB × HttpResponse :=
  match routeParse c cfg req with
  | .error _ => (db, { status := 400, success := false })
  | .ok none => (db, { status := 400, success := false })
  | .ok (some u) =>
    let updated := db.payments.map (applyPaymentUpdate u now)
    match updated.filter (fun p => p.id == u.payment_id) with
    | [] => (db, { status := 400, success := false })
    | [p] =>
      let db1 : DB := { db with payments := updated }
      if u.status = "success" then
        let db2 : DB := { db1 with orders := db1.orders.map (applyOrderSuccess p.order_id now) }
        let db3 : DB :=
          match db2.orders.find? (fun o => o.id == p.order_id) with
          | some o => if o.has_user then { db2 with emailsSent := db2.emailsSent + 1 } else db2
          | none => db2
        (db3, { status := 400, success := false })
      else
        (db1, { status := 200, success := true })
    | _ :: _ :: _ => ({ db with payments := updated }, { status := 400, success := false })

/-! Concrete fixtures used by the witnesses and counterexamples. `cW` is a
concrete crypto instantiation (constant digests, identity encoding); the
secrets of `cfgW` are all configured. -/

def cW : Crypto :=
  { md5 := fun _ => "MD", hmacSHA512 := fun _ _ => "HM", urlencode := fun s => s }

def cfgW : GatewayConfig :=
  { koraWebhookSecret := "ksec", orangeMerchantKey := "omk"
    payGateKey := "pgk", payFastPassphrase := "pp" }

/-- Payment fixture builder: a payment row for the given order in the
given status. -/
def mkPaymentRow (pid oid uid st : String) (pat : Option Nat) : PaymentRow :=
  { id := pid, order_id := oid, user_id := uid, payment_method := "payfast"
    amount := 1000, currency := "ZAR", status := st
    gateway_transaction_id := "t0", gateway_response := "g0"
    processed_at := pat, created_at := 7, updated_at := 7 }

/-- Order fixture builder. -/
def mkOrderRow (oid uid pst fst : String) : OrderRow :=
  { id := oid, user_id := uid, total_price := 1000, payment_status := pst
    status := fst, has_user := true, updated_at := 7 }

/-! Helper lemmas about the JavaScript-style split used by the KoraPay
webhook handler, and about the generated payment reference. -/

theorem splitCh_ne_nil (sep : Char) (l : List Char) : splitCh sep l ≠ [] := by
  induction l with
  | nil => simp [splitCh]
  | cons a as ih =>
    unfold splitCh
    cases h : splitCh sep as with
    | nil => exact absurd h ih
    | cons hd tl => dsimp; split <;> simp

theorem splitCh_of_not_mem {sep : Char} {l : List Char} (h : sep ∉ l) :
    splitCh sep l = [l] := by
  induction l with
  | nil => rfl
  | cons a as ih =>
    have ha : a ≠ sep := fun e => h (e ▸ List.mem_cons_self a as)
    have h2 : sep ∉ as := fun m => h (List.mem_cons_of_mem a m)
    unfold splitCh
    rw [ih h2]
    simp [ha]

theorem splitCh_cons (sep a : Char) (as : List Char) :
    splitCh sep (a :: as) =
      match splitCh sep as with
      | [] => if a = sep then [[], []] else [[a]]
      | h :: t => if a = sep then [] :: h :: t else (a :: h) :: t := rfl

theorem splitCh_append {sep : Char} {l rest : List Char} (h : sep ∉ l) :
    splitCh sep (l ++ sep :: rest) = l :: splitCh sep rest := by
  induction l with
  | nil =>
    show splitCh sep (sep :: rest) = [] :: splitCh sep rest
    rw [splitCh_cons]
    cases hr : splitCh sep rest with
    | nil => exact absurd hr (splitCh_ne_nil sep rest)
    | cons hd tl => simp
  | cons a as ih =>
    have ha : a ≠ sep := fun e => h (e ▸ List.mem_cons_self a as)
    have h2 : sep ∉ as := fun m => h (List.mem_cons_of_mem a m)
    rw [List.cons_append, splitCh_cons, ih h2]
    simp [ha]

/-- Under the realistic assumption that neither the order id nor the
rendered timestamp contains an underscore, the generated reference splits
into exactly the three segments `mg`, order id, timestamp. -/
theorem jsSplitUnderscore_mkRef {oid : String} {ts : Nat}
    (h1 : '_' ∉ oid.data) (h2 : '_' ∉ (toString ts).data) :
    jsSplitUnderscore (mkRef oid ts) = ["mg", oid, toString ts] := by
  unfold jsSplitUnderscore mkRef
  have hdata : ("mg_" ++ oid ++ "_" ++ toString ts).data
      = ['m', 'g'] ++ '_' :: (oid.data ++ '_' :: (toString ts).data) := by
    simp [String.data_append]
  rw [hdata, splitCh_append (by decide), splitCh_append h1, splitCh_of_not_mem h2]
  simp

/-- The generated reference is never the bare order id (it is strictly
longer). -/
theorem mkRef_ne (oid : String) (ts : Nat) : mkRef oid ts ≠ oid := by
  intro h
  have hd := congrArg (fun s => s.data.length) h
  simp [mkRef, String.data_append] at hd
  omega

/-! Helper lemmas characterising the parsed payment id and status of each
adapter's webhook result. -/

theorem payFast_webhook_fields {c : Crypto} {pass : String} {ok : Bool}
    {data : FormData} {u : PaymentUpdate}
    (h : payFastHandleWebhook c pass ok data = .ok (some u)) :
    u.payment_id = fdGetD data "custom_str1" ∧
    (u.status = "success" ∨ u.status = "failed" ∨ u.status = "pending") := by
  unfold payFastHandleWebhook at h
  split at h
  · exact absurd h (by simp)
  · split at h
    · exact absurd h (by simp)
    · simp only [Except.ok.injEq, Option.some.injEq] at h
      subst h
      refine ⟨rfl, ?_⟩
      dsimp
      split
      · exact Or.inl rfl
      · split
        · exact Or.inr (Or.inl rfl)
        · exact Or.inr (Or.inr rfl)

theorem payGate_webhook_fields {c : Crypto} {key : String}
    {data : FormData} {u : PaymentUpdate}
    (h : payGateHandleWebhook c key data = .ok (some u)) :
    u.payment_id = fdGetD data "USER1" ∧
    (u.status = "success" ∨ u.status = "failed" ∨ u.status = "pending" ∨
      u.status = "cancelled") := by
  unfold payGateHandleWebhook at h
  split at h
  · exact absurd h (by simp)
  · simp only [Except.ok.injEq, Option.some.injEq] at h
    subst h
    refine ⟨rfl, ?_⟩
    dsimp
    split
    · exact Or.inl rfl
    · split
      · exact Or.inr (Or.inl rfl)
      · split
        · exact Or.inr (Or.inr (Or.inr rfl))
        · exact Or.inr (Or.inr (Or.inl rfl))

theorem kora_webhook_fields {c : Crypto} {sec : String}
    {p : KoraWebhookPayload} {sig : String} {u : PaymentUpdate}
    (h : koraHandleWebhook c sec p sig = .ok (some u)) :
    u.payment_id = (jsSplitUnderscore p.reference).getD 1 "" ∧
    (u.status = "success" ∨ u.status = "failed") := by
  unfold koraHandleWebhook at h
  split at h
  · exact absurd h (by simp)
  · split at h
    · simp only [Except.ok.injEq, Option.some.injEq] at h
      subst h
      exact ⟨rfl, Or.inl rfl⟩
    · split at h
      · simp only [Except.ok.injEq, Option.some.injEq] at h
        subst h
        exact ⟨rfl, Or.inr rfl⟩
      · exact absurd h (by simp)

theorem mtn_webhook_fields {p : MTNWebhookPayload} {sig : String} {u : PaymentUpdate}
    (h : mtnHandleWebhook p sig = .ok (some u)) :
    u.payment_id = p.referenceId ∧ (u.status = "success" ∨ u.status = "failed") := by
  unfold mtnHandleWebhook at h
  split at h
  · simp only [Except.ok.injEq, Option.some.injEq] at h
    subst h
    exact ⟨rfl, Or.inl rfl⟩
  · split at h
    · simp only [Except.ok.injEq, Option.some.injEq] at h
      subst h
      exact ⟨rfl, Or.inr rfl⟩
    · exact absurd h (by simp)

theorem orange_webhook_fields {c : Crypto} {mk : String}
    {p : OrangeWebhookPayload} {sig : String} {u : PaymentUpdate}
    (h : orangeHandleWebhook c mk p sig = .ok (some u)) :
    u.payment_id = p.order_id ∧ (u.status = "success" ∨ u.status = "failed") := by
  unfold orangeHandleWebhook at h
  split at h
  · exact absurd h (by simp)
  · split at h
    · simp only [Except.ok.injEq, Option.some.injEq] at h
      subst h
      exact ⟨rfl, Or.inl rfl⟩
    · split at h
      · simp only [Except.ok.injEq, Option.some.injEq] at h
        subst h
        exact ⟨rfl, Or.inr rfl⟩
      · exact absurd h (by simp)

/-- Database fixture for the C1 failing input: one Payment already in the
terminal status success (processed at 7), its Order resolved and paid, one
confirmation email already dispatched. -/
def dbC1 : DB :=
  { payments := [mkPaymentRow "mg_o1_7" "o1" "u1" "success" (some 7)]
    orders := [mkOrderRow "o1" "u1" "success" "paid"], emailsSent := 1 }

/-- Replay at time 99 of the success webhook for that Payment (Orange
echoes the full reference; the route passes no `x-signature` value, so the
adapter skips verification, exactly as a real retry arrives). -/
def reqC1 : WebhookReq :=
  .orange "" { status := "SUCCESS", order_id := "mg_o1_7", txnid := "tx2"
               pay_token := "pt", raw := "r1" }

/-- Claim C1, refuted on the code (code_bug): the webhook route has no
idempotency guard - the payment update is filtered on id alone, with no
condition on the current status. Replaying a success webhook for a Payment
already in the terminal status success re-writes the Payment row (fresh
`processed_at`, `updated_at`, transaction id and raw response), re-applies
the Order update, dispatches a second confirmation email (emailsSent goes
from 1 to 2), and answers 400 (the affiliate-commission call is a
TypeError) instead of reporting success to the gateway. -/
theorem C1_terminal_replay_remutates :
    webhookRoute cW cfgW 99 dbC1 reqC1
    = ({ payments := [{ mkPaymentRow "mg_o1_7" "o1" "u1" "success" (some 99) with
                          gateway_transaction_id := "tx2", gateway_response := "r1"
                          updated_at := 99 }]
         orders := [{ mkOrderRow "o1" "u1" "success" "paid" with updated_at := 99 }]
         emailsSent := 2 },
       { status := 400, success := false }) ∧
    (webhookRoute cW cfgW 99 dbC1 reqC1).1 ≠ dbC1 := by decide

/-- Database fixture for the C2 failing input: a pending PayFast Payment
row keyed by the full mg reference, its Order pending. -/
def dbC2 : DB :=
  { payments := [mkPaymentRow "mg_ord3_7" "ord3" "u3" "pending" none]
    orders := [mkOrderRow "ord3" "u3" "pending" "pending"], emailsSent := 0 }

/-- PayFast success webhook echoing that attempt: payment_status COMPLETE,
the order id echoed in custom_str1, the merchant reference in m_payment_id,
and a signature that verifies under `cW` and the configured passphrase. -/
def dataC2 : FormData :=
  [("payment_status", "COMPLETE"), ("custom_str1", "ord3"),
   ("m_payment_id", "mg_ord3_7"), ("signature", "MD")]

/-- Claim C2, refuted on the code (code_bug): a valid success webhook for a
pending PayFast Payment does not move it to success. The adapter parses
`payment_id` from custom_str1 - the bare order id - while the Payment row
is keyed by the full mg reference, so the update filtered on that id
matches no row, the `.single()` read back fails, the endpoint answers 400,
and neither the Payment nor the Order changes. (The signature does verify:
the parse succeeds and maps COMPLETE to success, as the second conjunct
shows; only the row lookup can never match.) -/
theorem C2_success_webhook_misses_payment :
    webhookRoute cW cfgW 99 dbC2 (.payfast "" true dataC2)
      = (dbC2, { status := 400, success := false }) ∧
    routeParse cW cfgW (.payfast "" true dataC2)
      = .ok (some { payment_id := "ord3", transaction_id := "mg_ord3_7"
                    status := "success"
                    gateway_response :=
                      renderForm [("payment_status", "COMPLETE"), ("custom_str1", "ord3"),
                                  ("m_payment_id", "mg_ord3_7")] }) ∧
    (∀ p ∈ dbC2.payments, p.id ≠ "ord3") := by decide

/-- Database fixture for the C5 failing input: a fresh pending Payment
reachable by its webhook (Orange keys the webhook by the full reference),
Order pending. -/
def dbC5 : DB :=
  { payments := [mkPaymentRow "mg_ord2_7" "ord2" "u2" "pending" none]
    orders := [mkOrderRow "ord2" "u2" "pending" "pending"], emailsSent := 0 }

def reqC5 : WebhookReq :=
  .orange "" { status := "SUCCESS", order_id := "mg_ord2_7", txnid := "tx5"
               pay_token := "pt5", raw := "r5" }

/-- Claim C5, refuted on the code (code_bug): a success webhook whose
processing fully succeeds - the Payment moves to success, the Order to
success/paid, the confirmation email is dispatched - is nevertheless
answered 400, because the handler then calls
`this.processAffiliateCommission`, a TypeError (the arrow handler's `this`
is the module's original empty exports object, to which that function was
never attached), caught by the catch block that answers 400. So non-200
responses are not confined to signature failures and unknown sources. -/
theorem C5_successful_processing_answers_400 :
    webhookRoute cW cfgW 99 dbC5 reqC5
    = ({ payments := [{ mkPaymentRow "mg_ord2_7" "ord2" "u2" "success" (some 99) with
                          gateway_transaction_id := "tx5", gateway_response := "r5"
                          updated_at := 99 }]
         orders := [{ mkOrderRow "ord2" "u2" "success" "paid" with updated_at := 99 }]
         emailsSent := 1 },
       { status := 400, success := false }) ∧
    (webhookRoute cW cfgW 99 dbC5 reqC5).2.status ≠ 200 := by decide

/-- Claim C6 (confirmed): whenever the selected adapter's initiate call
fails, the initialize route rethrows it as the generic
`Payment initialization failed` error and the payments table is exactly
what it was - no orphan pending row. -/
theorem C6_no_orphan_on_init_failure (db : DB) (user : UserRec) (req : InitReq)
    (gw : String → Except String InitResult) (now : Nat) (o : OrderRow) (e : String)
    (h1 : req.order_id ≠ "") (h2 : req.payment_method ≠ "")
    (h3 : findOrder db req.order_id user.id = some o)
    (h4 : o.payment_status = "pending")
    (h5 : ¬((req.payment_method = "mtn" ∨ req.payment_method = "orange") ∧
        req.phone_number = ""))
    (h6 : req.payment_method ∈ knownMethods)
    (h7 : gw req.payment_method = .error e) :
    initRoute db user req gw now =
      { db := db, gatewayCalled := some req.payment_method
        result := .error (.generic ("Payment initialization failed: " ++ e)) } := by
  unfold initRoute
  rw [if_neg (by simp [h1, h2]), h3]
  dsimp only
  rw [if_neg (by simp [h4]), if_neg h5, if_neg (by simp [h6]), h7]

def dbC6 : DB :=
  { payments := [], orders := [mkOrderRow "ord8" "u8" "pending" "pending"]
    emailsSent := 0 }

def userC6 : UserRec :=
  { id := "u8", email := "e8", full_name := "N E", phone_number := "", country := "ZA" }

def reqC6 : InitReq :=
  { order_id := "ord8", payment_method := "payfast", return_url := "", phone_number := "" }

/-- Witness for C6 at a concrete failing gateway call. -/
theorem C6_no_orphan_witness :
    initRoute dbC6 userC6 reqC6 (fun _ => .error "PayFast error: boom") 5 =
      { db := dbC6, gatewayCalled := some "payfast"
        result := .error (.generic "Payment initialization failed: PayFast error: boom") } :=
  C6_no_orphan_on_init_failure dbC6 userC6 reqC6 (fun _ => .error "PayFast error: boom") 5
    (mkOrderRow "ord8" "u8" "pending" "pending") "PayFast error: boom"
    (by decide) (by decide) (by decide) (by decide) (by decide) (by decide) rfl

/-- Claim C7 (confirmed): with the order looked up (by id and owner), a
payment status other than pending makes initialize fail with the
already-processed validation error before any gateway adapter is invoked
and with the database untouched; and conversely the gateway adapter is
only ever invoked when the order payment status is pending. -/
theorem C7_already_processed_guard (db : DB) (user : UserRec) (req : InitReq)
    (gw : String → Except String InitResult) (now : Nat) (o : OrderRow)
    (h1 : req.order_id ≠ "") (h2 : req.payment_method ≠ "")
    (h3 : findOrder db req.order_id user.id = some o) :
    (o.payment_status ≠ "pending" →
      initRoute db user req gw now =
        { db := db, gatewayCalled := none
          result := .error (.validation "Order payment has already been processed") }) ∧
    ((initRoute db user req gw now).gatewayCalled.isSome → o.payment_status = "pending") := by
  constructor
  · intro hne
    unfold initRoute
    rw [if_neg (by simp [h1, h2]), h3]
    dsimp only
    rw [if_pos hne]
  · intro hs
    by_contra hne
    have heq : initRoute db user req gw now =
        { db := db, gatewayCalled := none
          result := .error (.validation "Order payment has already been processed") } := by
      unfold initRoute
      rw [if_neg (by simp [h1, h2]), h3]
      dsimp only
      rw [if_pos hne]
    rw [heq] at hs
    simp at hs

def dbC7 : DB :=
  { payments := [mkPaymentRow "mg_ord9_7" "ord9" "u9" "success" (some 7)]
    orders := [mkOrderRow "ord9" "u9" "success" "paid"], emailsSent := 1 }

def userC7 : UserRec :=
  { id := "u9", email := "e9", full_name := "N I", phone_number := "", country := "ZA" }

def reqC7 : InitReq :=
  { order_id := "ord9", payment_method := "payfast", return_url := "", phone_number := "" }

/-- Witness for C7 at a concrete resolved order. -/
theorem C7_already_processed_witness :
    ((mkOrderRow "ord9" "u9" "success" "paid").payment_status ≠ "pending" →
      initRoute dbC7 userC7 reqC7 (fun _ => .error "x") 5 =
        { db := dbC7, gatewayCalled := none
          result := .error (.validation "Order payment has already been processed") }) ∧
    ((initRoute dbC7 userC7 reqC7 (fun _ => .error "x") 5).gatewayCalled.isSome →
      (mkOrderRow "ord9" "u9" "success" "paid").payment_status = "pending") :=
  C7_already_processed_guard dbC7 userC7 reqC7 (fun _ => .error "x") 5
    (mkOrderRow "ord9" "u9" "success" "paid") (by decide) (by decide) rfl

def dbC8 : DB :=
  { payments := [mkPaymentRow "mg_ord4_7" "ord4" "u4" "pending" none]
    orders := [mkOrderRow "ord4" "u4" "pending" "pending"], emailsSent := 0 }

def reqC8 : WebhookReq :=
  .orange "" { status := "FAILED", order_id := "mg_ord4_7", txnid := "tx4"
               pay_token := "pt4", raw := "r4" }

/-- Counterexample to claim C8: a webhook mapping to failed for a pending
Payment updates the Payment row to failed but performs no write on the
orders table at all - the parent Order keeps payment status pending, it is
not set to failed as the claim states. -/
theorem C8_failed_webhook_counterexample :
    (webhookRoute cW cfgW 99 dbC8 reqC8).1.orders
      = [mkOrderRow "ord4" "u4" "pending" "pending"] ∧
    (mkOrderRow "ord4" "u4" "pending" "pending").payment_status ≠ "failed" ∧
    (webhookRoute cW cfgW 99 dbC8 reqC8).1.payments.map (·.status) = ["failed"] ∧
    (webhookRoute cW cfgW 99 dbC8 reqC8).2 = { status := 200, success := true } := by
  decide

/-- Claim C8 as amended: when the parsed webhook status is failed, the
webhook route only writes the Payment row; the orders table is left
entirely unchanged (in particular the Order payment status is not set to
failed) and no notification is dispatched. -/
theorem C8_failed_is_order_frame (c : Crypto) (cfg : GatewayConfig) (now : Nat)
    (db : DB) (req : WebhookReq) (u : PaymentUpdate)
    (h : routeParse c cfg req = .ok (some u)) (hf : u.status = "failed") :
    ((webhookRoute c cfg now db req).1).orders = db.orders ∧
    ((webhookRoute c cfg now db req).1).emailsSent = db.emailsSent := by
  unfold webhookRoute
  rw [h]
  dsimp only
  split
  · exact ⟨rfl, rfl⟩
  · rw [hf, if_neg (by decide)]
    exact ⟨rfl, rfl⟩
  · exact ⟨rfl, rfl⟩

/-- Witness for the amended C8 at the concrete failed Orange webhook. -/
theorem C8_failed_is_order_frame_witness :
    ((webhookRoute cW cfgW 99 dbC8 reqC8).1).orders = dbC8.orders ∧
    ((webhookRoute cW cfgW 99 dbC8 reqC8).1).emailsSent = dbC8.emailsSent :=
  C8_failed_is_order_frame cW cfgW 99 dbC8 reqC8
    { payment_id := "mg_ord4_7", transaction_id := "tx4", status := "failed"
      gateway_response := "r4" } (by decide) rfl

def dataC9 : FormData :=
  [("TRANSACTION_STATUS", "4"), ("USER1", "ord6"),
   ("PAY_REQUEST_ID", "pr6"), ("CHECKSUM", "MD")]

def dbC9 : DB :=
  { payments := [mkPaymentRow "ord6" "ord6" "u6" "pending" none]
    orders := [mkOrderRow "ord6" "u6" "pending" "pending"], emailsSent := 0 }

/-- Counterexample to claim C9: PayGate maps TRANSACTION_STATUS 4 to the
status string cancelled, which is outside the tri-state, and the webhook
route writes that fourth value verbatim into a Payment row whose id
matches the parsed payment id. -/
theorem C9_paygate_cancelled_counterexample :
    routeParse cW cfgW (.paygate "" dataC9)
      = .ok (some { payment_id := "ord6", transaction_id := "pr6"
                    status := "cancelled", gateway_response := renderForm dataC9 }) ∧
    "cancelled" ∉ (["pending", "success", "failed"] : List String) ∧
    (webhookRoute cW cfgW 99 dbC9 (.paygate "" dataC9)).1.payments.map (·.status)
      = ["cancelled"] := by decide

/-- Claim C9 as amended: KoraPay, MTN, Orange and PayFast map every webhook
they accept onto the tri-state pending/success/failed, but PayGate
additionally maps its status code 4 onto cancelled, so the status the
webhook route writes into the Payment row ranges over the four values
pending, success, failed, cancelled. -/
theorem C9_adapter_status_range (c : Crypto) (sec mkey pass key : String)
    (kp : KoraWebhookPayload) (mp : MTNWebhookPayload) (op : OrangeWebhookPayload)
    (dpf dpg : FormData) (sk sm so : String) (vo : Bool)
    (uk um uo upf upg : PaymentUpdate)
    (hk : koraHandleWebhook c sec kp sk = .ok (some uk))
    (hm : mtnHandleWebhook mp sm = .ok (some um))
    (ho : orangeHandleWebhook c mkey op so = .ok (some uo))
    (hpf : payFastHandleWebhook c pass vo dpf = .ok (some upf))
    (hpg : payGateHandleWebhook c key dpg = .ok (some upg)) :
    uk.status ∈ (["pending", "success", "failed"] : List String) ∧
    um.status ∈ (["pending", "success", "failed"] : List String) ∧
    uo.status ∈ (["pending", "success", "failed"] : List String) ∧
    upf.status ∈ (["pending", "success", "failed"] : List String) ∧
    upg.status ∈ (["pending", "success", "failed", "cancelled"] : List String) := by
  refine ⟨?_, ?_, ?_, ?_, ?_⟩
  · rcases (kora_webhook_fields hk).2 with h2 | h2 <;> simp [h2]
  · rcases (mtn_webhook_fields hm).2 with h2 | h2 <;> simp [h2]
  · rcases (orange_webhook_fields ho).2 with h2 | h2 <;> simp [h2]
  · rcases (payFast_webhook_fields hpf).2 with h2 | h2 | h2 <;> simp [h2]
  · rcases (payGate_webhook_fields hpg).2 with h2 | h2 | h2 | h2 <;> simp [h2]

/-- Witness for the amended C9 at one concrete accepted webhook per
adapter. -/
theorem C9_adapter_status_range_witness :
    ({ payment_id := "oA", transaction_id := "mg_oA_5", status := "success"
       gateway_response := "kr9" } : PaymentUpdate).status
      ∈ (["pending", "success", "failed"] : List String) ∧
    ({ payment_id := "mg_oB_5", transaction_id := "mg_oB_5", status := "failed"
       gateway_response := "mr9" } : PaymentUpdate).status
      ∈ (["pending", "success", "failed"] : List String) ∧
    ({ payment_id := "mg_oC_5", transaction_id := "pt9", status := "success"
       gateway_response := "or9" } : PaymentUpdate).status
      ∈ (["pending", "success", "failed"] : List String) ∧
    ({ payment_id := "oD", transaction_id := "mpid9", status := "pending"
       gateway_response := renderForm [("custom_str1", "oD"), ("m_payment_id", "mpid9")] }
        : PaymentUpdate).status
      ∈ (["pending", "success", "failed"] : List String) ∧
    ({ payment_id := "oE", transaction_id := "pr9", status := "failed"
       gateway_response := renderForm [("TRANSACTION_STATUS", "2"), ("USER1", "oE"),
                                       ("PAY_REQUEST_ID", "pr9"), ("CHECKSUM", "MD")] }
        : PaymentUpdate).status
      ∈ (["pending", "success", "failed", "cancelled"] : List String) :=
  C9_adapter_status_range cW "ksec" "omk" "pp" "pgk"
    { event := "charge.success", reference := "mg_oA_5", raw := "kr9" }
    { status := "FAILED", referenceId := "mg_oB_5", financialTransactionId := ""
      raw := "mr9" }
    { status := "SUCCESS", order_id := "mg_oC_5", txnid := "", pay_token := "pt9"
      raw := "or9" }
    [("custom_str1", "oD"), ("m_payment_id", "mpid9"), ("signature", "MD")]
    [("TRANSACTION_STATUS", "2"), ("USER1", "oE"), ("PAY_REQUEST_ID", "pr9"),
     ("CHECKSUM", "MD")]
    "HM" "" "" true _ _ _ _ _
    (by decide) (by decide) (by decide) (by decide) (by decide)

def dbC10 : DB :=
  { payments := [], orders := [mkOrderRow "ord7" "u7" "pending" "pending"]
    emailsSent := 0 }

def userC10 : UserRec :=
  { id := "u7", email := "e7", full_name := "N O", phone_number := "699112233"
    country := "ZA" }

def reqC10 : InitReq :=
  { order_id := "ord7", payment_method := "mtn", return_url := ""
    phone_number := "699112233" }

def gwC10 : String → Except String InitResult := fun _ =>
  .ok { payment_id := "mg_ord7_5", transaction_id := "mg_ord7_5"
        payment_url := none, currency := "XAF", gateway_response := "mtn-accepted" }

/-- Counterexample to claim C10: the pair (mtn, ZA) is not in the static
availability table, yet initialize for a ZA user with method mtn performs
no country check at all - it dispatches straight to the MTN adapter and
succeeds, instead of failing with UnsupportedMethod. -/
theorem C10_mtn_za_counterexample :
    "mtn" ∉ methodIdsFor "ZA" ∧
    userC10.country = "ZA" ∧
    (initRoute dbC10 userC10 reqC10 gwC10 5).gatewayCalled = some "mtn" ∧
    (initRoute dbC10 userC10 reqC10 gwC10 5).result
      = .ok { payment_id := "mg_ord7_5", transaction_id := "mg_ord7_5"
              payment_url := none, currency := "XAF"
              gateway_response := "mtn-accepted" } := by decide

/-- Claim C10 as amended: country availability is enforced only by the
static table behind GET /payments/methods; the initialize route gates on
the method id alone - a method id outside the five known ones fails (with
the generic unsupported-method error, country never consulted), and any of
the five known ids proceeds to gateway initiation regardless of the user's
country. -/
theorem C10_method_gate_ignores_country (db : DB) (user : UserRec) (req : InitReq)
    (gw : String → Except String InitResult) (now : Nat) (o : OrderRow)
    (h1 : req.order_id ≠ "") (h2 : req.payment_method ≠ "")
    (h3 : findOrder db req.order_id user.id = some o)
    (h4 : o.payment_status = "pending")
    (h5 : ¬((req.payment_method = "mtn" ∨ req.payment_method = "orange") ∧
        req.phone_number = "")) :
    (req.payment_method ∉ knownMethods →
      initRoute db user req gw now =
        { db := db, gatewayCalled := none
          result := .error (.generic "Payment initialization failed: Unsupported payment method") }) ∧
    (req.payment_method ∈ knownMethods →
      (initRoute db user req gw now).gatewayCalled = some req.payment_method) := by
  constructor
  · intro hnot
    unfold initRoute
    rw [if_neg (by simp [h1, h2]), h3]
    dsimp only
    rw [if_neg (by simp [h4]), if_neg h5, if_pos hnot]
  · intro hmem
    unfold initRoute
    rw [if_neg (by simp [h1, h2]), h3]
    dsimp only
    rw [if_neg (by simp [h4]), if_neg h5, if_neg (by simp [hmem])]
    cases hgw : gw req.payment_method with
    | error e => rfl
    | ok r =>
      dsimp only
      split <;> rfl

/-- Witness for the amended C10 at a concrete Cameroon-listed method used
by a South-African user. -/
theorem C10_method_gate_witness :
    (reqC10.payment_method ∉ knownMethods →
      initRoute dbC10 userC10 reqC10 gwC10 5 =
        { db := dbC10, gatewayCalled := none
          result := .error (.generic "Payment initialization failed: Unsupported payment method") }) ∧
    (reqC10.payment_method ∈ knownMethods →
      (initRoute dbC10 userC10 reqC10 gwC10 5).gatewayCalled
        = some reqC10.payment_method) :=
  C10_method_gate_ignores_country dbC10 userC10 reqC10 gwC10 5
    (mkOrderRow "ord7" "u7" "pending" "pending")
    (by decide) (by decide) rfl (by decide) (by decide)


def dbC4 : DB :=
  { payments := [mkPaymentRow "mg_ord5_7" "ord5" "u5" "pending" none]
    orders := [mkOrderRow "ord5" "u5" "pending" "pending"], emailsSent := 0 }

def reqC4 : WebhookReq :=
  .mtn "BAD" { status := "SUCCESSFUL", referenceId := "mg_ord5_7"
               financialTransactionId := "ftx", raw := "r" }

/-- Counterexample to claim C4: the MTN adapter performs no signature
verification, so an MTN webhook whose signature header value BAD matches no
digest the configured crypto can produce is still processed and mutates the
Payment and Order rows (the pending Payment becomes success). -/
theorem C4_mtn_unverified_counterexample :
    (∀ s m : String, "BAD" ≠ cW.hmacSHA512 s m) ∧
    (∀ m : String, "BAD" ≠ cW.md5 m) ∧
    (webhookRoute cW cfgW 99 dbC4 reqC4).1.payments.map (·.status) = ["success"] ∧
    (webhookRoute cW cfgW 99 dbC4 reqC4).1.orders.map (·.payment_status) = ["success"] ∧
    (webhookRoute cW cfgW 99 dbC4 reqC4).1 ≠ dbC4 :=
  ⟨fun s m => by simp [cW], fun m => by simp [cW], by decide, by decide, by decide⟩

/-- Shared helper: when the adapter dispatch-and-parse step throws, the
webhook route answers 400 with the database untouched. -/
theorem webhookRoute_of_parse_error {c : Crypto} {cfg : GatewayConfig}
    {req : WebhookReq} {e : String} (now : Nat) (db : DB)
    (h : routeParse c cfg req = .error e) :
    webhookRoute c cfg now db req = (db, { status := 400, success := false }) := by
  unfold webhookRoute
  rw [h]

/-- Claim C4 as amended: the four adapters that do verify - KoraPay (with a
configured webhook secret), Orange (when a signature value is present and
the merchant key configured), PayGate and PayFast - reject a webhook whose
signature or checksum does not match the recomputation under the shared
secret, answer 400, and leave the database untouched; MTN verifies nothing,
so the rejection property does not extend to all five adapters. -/
theorem C4_signed_adapters_reject (c : Crypto) (cfg : GatewayConfig) (now : Nat)
    (db : DB) (kp : KoraWebhookPayload) (op : OrangeWebhookPayload)
    (dpf dpg : FormData) (sigK sigO sigP sigF : String) (vo : Bool)
    (hk1 : cfg.koraWebhookSecret ≠ "")
    (hk2 : sigK ≠ c.hmacSHA512 cfg.koraWebhookSecret kp.raw)
    (ho1 : sigO ≠ "") (ho2 : cfg.orangeMerchantKey ≠ "")
    (ho3 : jsToLower sigO ≠ jsToLower (c.md5 (op.raw ++ cfg.orangeMerchantKey)))
    (hpg : fdGetD dpg "CHECKSUM" ≠ payGateGenerateChecksum c cfg.payGateKey dpg)
    (hpf : fdGetD dpf "signature" ≠ payFastGenerateSignature c cfg.payFastPassphrase dpf) :
    webhookRoute c cfg now db (.kora sigK kp) = (db, { status := 400, success := false }) ∧
    webhookRoute c cfg now db (.orange sigO op) = (db, { status := 400, success := false }) ∧
    webhookRoute c cfg now db (.paygate sigP dpg) = (db, { status := 400, success := false }) ∧
    webhookRoute c cfg now db (.payfast sigF vo dpf) = (db, { status := 400, success := false }) := by
  have ek : koraHandleWebhook c cfg.koraWebhookSecret kp sigK
      = .error "Invalid webhook signature" := by
    have hkv : koraVerifyWebhookSignature c cfg.koraWebhookSecret kp sigK = false := by
      unfold koraVerifyWebhookSignature
      rw [if_neg hk1]
      exact beq_eq_false_iff_ne.mpr hk2
    unfold koraHandleWebhook
    rw [hkv]
    rfl
  have eo : orangeHandleWebhook c cfg.orangeMerchantKey op sigO
      = .error "Invalid webhook signature" := by
    have hov : orangeVerifyWebhookSignature c cfg.orangeMerchantKey op sigO = false := by
      unfold orangeVerifyWebhookSignature
      rw [if_neg ho2]
      exact beq_eq_false_iff_ne.mpr ho3
    unfold orangeHandleWebhook
    rw [hov, if_pos ⟨ho1, rfl⟩]
  have eg : payGateHandleWebhook c cfg.payGateKey dpg
      = .error "Invalid PayGate checksum" := by
    unfold payGateHandleWebhook
    rw [if_pos hpg]
  have ef : payFastHandleWebhook c cfg.payFastPassphrase vo dpf
      = .error "Invalid PayFast signature" := by
    unfold payFastHandleWebhook
    rw [if_pos hpf]
  exact ⟨webhookRoute_of_parse_error now db ek, webhookRoute_of_parse_error now db eo,
         webhookRoute_of_parse_error now db eg, webhookRoute_of_parse_error now db ef⟩

/-- Witness for the amended C4: one concretely tampered webhook per
verifying adapter, all answered 400 with the database unchanged. -/
theorem C4_signed_adapters_reject_witness :
    webhookRoute cW cfgW 99 dbC4
        (.kora "X" { event := "charge.success", reference := "mg_ord5_7", raw := "kr4" })
      = (dbC4, { status := 400, success := false }) ∧
    webhookRoute cW cfgW 99 dbC4
        (.orange "X" { status := "SUCCESS", order_id := "mg_ord5_7", txnid := ""
                       pay_token := "pt4", raw := "or4" })
      = (dbC4, { status := 400, success := false }) ∧
    webhookRoute cW cfgW 99 dbC4
        (.paygate "X" [("TRANSACTION_STATUS", "1"), ("USER1", "ord5"),
                       ("PAY_REQUEST_ID", "pr4"), ("CHECKSUM", "X")])
      = (dbC4, { status := 400, success := false }) ∧
    webhookRoute cW cfgW 99 dbC4
        (.payfast "X" true [("payment_status", "COMPLETE"), ("custom_str1", "ord5"),
                            ("m_payment_id", "mg_ord5_7"), ("signature", "X")])
      = (dbC4, { status := 400, success := false }) :=
  C4_signed_adapters_reject cW cfgW 99 dbC4
    { event := "charge.success", reference := "mg_ord5_7", raw := "kr4" }
    { status := "SUCCESS", order_id := "mg_ord5_7", txnid := "", pay_token := "pt4"
      raw := "or4" }
    [("payment_status", "COMPLETE"), ("custom_str1", "ord5"),
     ("m_payment_id", "mg_ord5_7"), ("signature", "X")]
    [("TRANSACTION_STATUS", "1"), ("USER1", "ord5"), ("PAY_REQUEST_ID", "pr4"),
     ("CHECKSUM", "X")]
    "X" "X" "X" "X" true
    (by decide) (by decide) (by decide) (by decide) (by decide) (by decide) (by decide)

/-- Counterexample to claim C3: for the order id a_b (an id containing an
underscore) the KoraPay webhook echoing reference mg_a_b_5 parses
payment_id a - the segment before the first underscore of the order id -
which is not the bare order identifier a_b as the claim states for all
orders. -/
theorem C3_kora_underscore_counterexample :
    koraHandleWebhook cW "ksec"
        { event := "charge.success", reference := mkRef "a_b" 5, raw := "kr" } "HM"
      = .ok (some { payment_id := "a", transaction_id := "mg_a_b_5"
                    status := "success", gateway_response := "kr" }) ∧
    "a" ≠ "a_b" ∧ mkRef "a_b" 5 = "mg_a_b_5" := by decide

/-- Claim C3 as amended: for the three signed adapters, initiation returns
payment_id equal to the full reference mg order-id timestamp (the id under
which the initialize route persists the Payment row), while the webhook
echoing that attempt parses payment_id as the bare order id for PayFast
(custom_str1) and PayGate (USER1), and for KoraPay as segment 1 of the
underscore-split reference - equal to the bare order id whenever the order
id itself contains no underscore; and for every timestamp the full
reference differs from the bare order id, so the parsed webhook payment_id
never equals the Payment row's identifier. -/
theorem C3_reference_vs_webhook_id (order : OrderRow) (user : UserRec)
    (now ts : Nat) (c : Crypto) (kresp : KoraInitResponse) (hkr : kresp.ok = true)
    (prid pass key sec sig raw : String) (vo : Bool) (dpf dpg : FormData)
    (upf upg uk : PaymentUpdate)
    (hpf : payFastHandleWebhook c pass vo dpf = .ok (some upf))
    (hecho1 : fdGetD dpf "custom_str1" = order.id)
    (hpg : payGateHandleWebhook c key dpg = .ok (some upg))
    (hecho2 : fdGetD dpg "USER1" = order.id)
    (hk : koraHandleWebhook c sec
        { event := "charge.success", reference := mkRef order.id ts, raw := raw } sig
      = .ok (some uk))
    (hnous : ¬ '_' ∈ order.id.data) (hts : ¬ '_' ∈ (toString ts).data) :
    (payFastInitPayment order user now).payment_id = mkRef order.id now ∧
    (koraInitPayment order user now (.ok kresp)).map (·.payment_id)
      = .ok (mkRef order.id now) ∧
    (payGateInitPayment order user now (.ok (some prid))).map (·.payment_id)
      = .ok (mkRef order.id now) ∧
    upf.payment_id = order.id ∧
    upg.payment_id = order.id ∧
    uk.payment_id = order.id ∧
    (∀ t : Nat, mkRef order.id t ≠ order.id) := by
  refine ⟨rfl, ?_, rfl, ?_, ?_, ?_, fun t => mkRef_ne order.id t⟩
  · simp [koraInitPayment, hkr, Except.map]
  · rw [(payFast_webhook_fields hpf).1, hecho1]
  · rw [(payGate_webhook_fields hpg).1, hecho2]
  · rw [(kora_webhook_fields hk).1, jsSplitUnderscore_mkRef hnous hts]
    rfl

def orderC3 : OrderRow := mkOrderRow "ordA" "uA" "pending" "pending"

def userC3 : UserRec :=
  { id := "uA", email := "eA", full_name := "N A", phone_number := "", country := "ZA" }

/-- Witness for the amended C3 at a concrete order, timestamps 6 (initiate)
and 5 (the webhook-echoed attempt). -/
theorem C3_reference_vs_webhook_id_witness :
    (payFastInitPayment orderC3 userC3 6).payment_id = mkRef orderC3.id 6 ∧
    (koraInitPayment orderC3 userC3 6
        (.ok { ok := true, dataReference := "KREF", checkoutUrl := "KURL"
               message := "" })).map (·.payment_id)
      = .ok (mkRef orderC3.id 6) ∧
    (payGateInitPayment orderC3 userC3 6 (.ok (some "PRID"))).map (·.payment_id)
      = .ok (mkRef orderC3.id 6) ∧
    ({ payment_id := "ordA", transaction_id := "mg_ordA_6", status := "success"
       gateway_response :=
         renderForm [("custom_str1", "ordA"), ("m_payment_id", "mg_ordA_6"),
                     ("payment_status", "COMPLETE")] }
        : PaymentUpdate).payment_id = orderC3.id ∧
    ({ payment_id := "ordA", transaction_id := "PRX", status := "success"
       gateway_response :=
         renderForm [("TRANSACTION_STATUS", "1"), ("USER1", "ordA"),
                     ("PAY_REQUEST_ID", "PRX"), ("CHECKSUM", "MD")] }
        : PaymentUpdate).payment_id = orderC3.id ∧
    ({ payment_id := "ordA", transaction_id := mkRef "ordA" 5, status := "success"
       gateway_response := "krw" } : PaymentUpdate).payment_id = orderC3.id ∧
    (∀ t : Nat, mkRef orderC3.id t ≠ orderC3.id) :=
  C3_reference_vs_webhook_id orderC3 userC3 6 5 cW
    { ok := true, dataReference := "KREF", checkoutUrl := "KURL", message := "" } rfl
    "PRID" "pp" "pgk" "ksec" "HM" "krw" true
    [("custom_str1", "ordA"), ("m_payment_id", "mg_ordA_6"),
     ("payment_status", "COMPLETE"), ("signature", "MD")]
    [("TRANSACTION_STATUS", "1"), ("USER1", "ordA"), ("PAY_REQUEST_ID", "PRX"),
     ("CHECKSUM", "MD")]
    _ _ _
    (by decide) (by decide) (by decide) (by decide) (by decide) (by decide) (by decide)

end Mallgram
